import Mathlib

/-!
# Verification of the ModKit OoP configuration pipeline

A shallow embedding of the configuration data model and the child-side
configuration merge of the ModKit runtime host
(`src/libs/modkit/src/bootstrap/oop.rs` and
`src/libs/modkit/src/bootstrap/run.rs`), together with proofs of the
stated properties of the merge pipeline, the migrate entrypoint and the
OoP spawn-configuration builder.

JSON values (`serde_json::Value`) are modelled by the inductive `Json`;
`serde_json::Map` and the Rust `HashMap`s are modelled as association
lists (`List (String × _)`); the uniqueness of keys in those maps is
carried as `NodupKeys` hypotheses where a theorem needs it.
-/

set_option autoImplicit false

namespace Modkit

/-- Model of `serde_json::Value`. Numbers are modelled as integers: none of
the verified operations inspect numeric values, they only copy them. Object
fields are an association list, mirroring `serde_json::Map`. -/
inductive Json where
  | null : Json
  | bool (b : Bool) : Json
  | num (n : Int) : Json
  | str (s : String) : Json
  | arr (xs : List Json) : Json
  | obj (fields : List (String × Json)) : Json
  deriving Repr

/-- Embeds `Value::is_object`. -/
def Json.isObj : Json → Bool
  | .obj _ => true
  | _ => false

/-- Embeds `Value::is_null`. -/
def Json.isNull : Json → Bool
  | .null => true
  | _ => false

/-- First-match lookup in an association list (`serde_json::Map::get`,
`HashMap::get`). -/
def alookup {α : Type} : List (String × α) → String → Option α
  | [], _ => none
  | (k', v) :: rest, k => if k' = k then some v else alookup rest k

/-- Insert-or-replace in an association list (`serde_json::Map::insert`,
`HashMap::insert`): the first binding of the key is replaced in place,
otherwise the binding is appended. -/
def aupsert {α : Type} : List (String × α) → String → α → List (String × α)
  | [], k, v => [(k, v)]
  | (k', v') :: rest, k, v =>
      if k' = k then (k', v) :: rest else (k', v') :: aupsert rest k v

/-- Apply a function to the value bound to the first occurrence of a key
(mutation through `get_mut` / `as_object_mut` in the Rust source). -/
def amodify {α : Type} : List (String × α) → String → (α → α) → List (String × α)
  | [], _, _ => []
  | (k', v) :: rest, k, f =>
      if k' = k then (k', f v) :: rest else (k', v) :: amodify rest k f

/-- The keys of an association list. -/
abbrev akeys {α : Type} (l : List (String × α)) : List String := l.map Prod.fst

/-- Distinctness of keys: the invariant of `serde_json::Map` / `HashMap`. -/
abbrev NodupKeys {α : Type} (l : List (String × α)) : Prop := (akeys l).Nodup

/-- `Value::get` on a JSON value: field lookup if it is an object,
`None` otherwise. -/
def Json.get : Json → String → Option Json
  | .obj fields, k => alookup fields k
  | _, _ => none

mutual
/-- Embeds `merge_json_objects` (oop.rs lines 324-344): recursively merges
`source` into `target`; source values override target values for matching
keys; if either side is not an object the result is `source`. -/
def mergeJsonObjects : Json → Json → Json
  | .obj tf, .obj sf => .obj (mergeFields tf sf)
  | _, s => s
termination_by _t s => (sizeOf s, 0, 0)

/-- The loop `for (key, value) in source_obj` of `merge_json_objects`,
threading the target's field map through each source entry. -/
def mergeFields : List (String × Json) → List (String × Json) → List (String × Json)
  | tf, [] => tf
  | tf, (k, v) :: rest => mergeFields (upsertMerge tf k v) rest
termination_by _tf sf => (sizeOf sf, 1, 0)

/-- One iteration of the `merge_json_objects` loop: if the key is present in
the target, the bound value is merged with (or replaced by) the source value
exactly as `merge_json_objects` does on the pair of values; otherwise the
entry is inserted. -/
def upsertMerge : List (String × Json) → String → Json → List (String × Json)
  | [], k, v => [(k, v)]
  | (k', tv) :: rest, k, v =>
      if k' = k then (k', mergeJsonObjects tv v) :: rest
      else (k', tv) :: upsertMerge rest k v
termination_by tf _k v => (sizeOf v, 2, sizeOf tf)
end

/-- Modelled from the spec: log levels of the `tracing` crate used by the
logging `Section` type, whose definition lives in `bootstrap/config.rs`
(not part of the sources). -/
inductive LogLevel where
  | trace | debug | info | warn | error
  deriving DecidableEq, Repr

/-- Modelled from the spec: console output format of a logging section
(`bootstrap/config.rs` is not part of the sources; the constructors are
irrelevant to the merge, which copies sections whole). -/
inductive ConsoleFormat where
  | text | json
  deriving DecidableEq, Repr

/-- Modelled from the spec: the optional file sink of a logging section,
as exercised by `oop_tests.rs` (`SectionFile { file, file_level }`). -/
structure SectionFile where
  file : String
  file_level : Option LogLevel
  deriving DecidableEq, Repr

/-- Modelled from the spec: one logging section (`Section` in
`bootstrap/config.rs`, not part of the sources): console level, optional
file sink, rotation limits. Field names follow `oop_tests.rs`. The merge
operations copy sections whole and never inspect the fields. -/
structure LogSection where
  console_level : Option LogLevel
  section_file : Option SectionFile
  console_format : ConsoleFormat
  max_age_days : Option Nat
  max_backups : Option Nat
  max_size_mb : Option Nat
  deriving DecidableEq, Repr

/-- The `LoggingConfig` map: a `HashMap<String, Section>` in the source, modelled as
an association list from subsystem key to section. -/
abbrev LoggingConfig : Type := List (String × LogSection)

/-- Modelled from the spec: telemetry configuration (enabled flag, endpoint,
sampling); `bootstrap/config.rs` is not part of the sources. The pipeline
only copies it, so the sampling parameter is modelled as an opaque string. -/
structure TracingConfig where
  enabled : Bool
  endpoint : Option String
  sampling : Option String
  deriving DecidableEq, Repr

/-- Modelled from the spec: `ServerConfig { home_dir }` as used in
`oop_tests.rs`; the path is modelled as a string. -/
structure ServerConfig where
  home_dir : String
  deriving DecidableEq, Repr

/-- The `RenderedDbConfig { global, module }` record: the database part of the rendered
per-module document. Its two components (`GlobalDatabaseConfig` and
`DbConnConfig`, defined in the external `modkit-db` crate) are kept in their
`serde_json` image, because `build_merged_db_options` immediately serializes
them with `serde_json::to_value` and only ever manipulates the JSON. -/
structure RenderedDbConfig where
  global : Option Json
  module : Option Json
  deriving Repr

/-- The `RenderedModuleConfig` document transmitted from parent to child for
one OoP module (fields as constructed in `oop_tests.rs`). -/
structure RenderedModuleConfig where
  database : Option RenderedDbConfig
  config : Json
  logging : Option LoggingConfig
  tracing : Option TracingConfig
  deriving Repr

/-- The `AppConfig` record: the effective configuration of one process, with the fields
exercised by the sources (`oop_tests.rs` `minimal_app_config`). The global
`database` section is kept in its `serde_json` image (see
`RenderedDbConfig`); `modules` maps module names to opaque JSON subtrees. -/
structure AppConfig where
  server : ServerConfig
  database : Option Json
  logging : LoggingConfig
  tracing : Option TracingConfig
  modules_dir : Option String
  modules : List (String × Json)
  deriving Repr

/-- The `DbOptions` outcome: either the `None` sentinel (no database configuration) or a
`DbManager` built from the merged configuration. The manager payload records
the home directory and the merged JSON handed to
`DbManager::from_figment` (the manager itself lives in the external
`modkit-db` crate). -/
inductive DbOptions where
  | noDb : DbOptions
  | manager (home_dir : String) (merged : Json) : DbOptions
  deriving Repr

/-- Embeds `HashMap::from_iter` (`collect` into a `HashMap`): each entry of the list
is inserted in order, later entries overwriting earlier ones. -/
def collectMap {α : Type} (l : List (String × α)) : List (String × α) :=
  l.foldl (fun acc p => aupsert acc p.1 p.2) []

/-- Embeds `merge_logging_configs` (oop.rs lines 201-208): master (if any) as
base, local as override, key by key — the master's entries are chained with
the local's and collected into a fresh map, so local bindings overwrite
master bindings for equal keys. -/
def merge_logging_configs (master : Option LoggingConfig) (local_logging : LoggingConfig) :
    LoggingConfig :=
  collectMap ((master.getD []) ++ local_logging)

/-- Embeds `build_merged_db_options` (oop.rs lines 214-322): decides whether
any database configuration exists on either side, and if so builds the
merged JSON configuration (rendered global + rendered module as base,
local global + local module overlaid with `merge_json_objects`) which the
source hands to `DbManager::from_figment`. -/
def build_merged_db_options (home_dir : String) (module_name : String)
    (rendered_db : Option RenderedDbConfig) (local_config : AppConfig) : DbOptions :=
  let has_rendered_db :=
    match rendered_db with
    | some db => db.module.isSome || db.global.isSome
    | none => false
  let has_local_db := local_config.database.isSome ||
    ((alookup local_config.modules module_name).bind (fun m => m.get "database")).isSome
  if !has_rendered_db && !has_local_db then
    DbOptions.noDb
  else
    -- Step 1: rendered database config from master as base
    let merged₀ : List (String × Json) :=
      match rendered_db with
      | none => []
      | some rendered =>
        let withGlobal :=
          match rendered.global with
          | some global => aupsert [] "database" global
          | none => []
        match rendered.module with
        | some module_db =>
            aupsert withGlobal "modules"
              (.obj [(module_name, .obj [("database", module_db)])])
        | none => withGlobal
    -- Step 2a: overlay local global database config
    let merged₁ :=
      match local_config.database with
      | some local_db =>
        match alookup merged₀ "database" with
        | some existing =>
            aupsert merged₀ "database" (mergeJsonObjects existing local_db)
        | none => aupsert merged₀ "database" local_db
      | none => merged₀
    -- Step 2b: overlay local module database config
    let merged₂ :=
      match (alookup local_config.modules module_name).bind
          (fun m => m.get "database") with
      | some local_module_db =>
        let merged₁' :=
          if (alookup merged₁ "modules").isSome then merged₁
          else aupsert merged₁ "modules" (.obj [])
        amodify merged₁' "modules" (fun modules =>
          match modules with
          | .obj modules_obj =>
            let modules_obj' :=
              if (alookup modules_obj module_name).isSome then modules_obj
              else aupsert modules_obj module_name (.obj [])
            .obj (amodify modules_obj' module_name (fun module_entry =>
              match module_entry with
              | .obj module_obj =>
                match alookup module_obj "database" with
                | some existing_db =>
                    .obj (aupsert module_obj "database"
                      (mergeJsonObjects existing_db local_module_db))
                | none =>
                    .obj (aupsert module_obj "database" local_module_db)
              | other => other))
          | other => other)
      | none => merged₁
    DbOptions.manager home_dir (.obj merged₂)

/-- Embeds the `final_config` part of `build_oop_config_and_db`
(oop.rs lines 142-177): with a rendered config present, the local config is
cloned, the module entry is created if absent, and — when the entry is an
object whose `config` key is absent or null — the rendered `config` subtree
is inserted; otherwise the local entry is untouched. Without a rendered
config the local config is used entirely. -/
def build_final_config (local_config : AppConfig) (module_name : String)
    (rendered_config : Option RenderedModuleConfig) : AppConfig :=
  match rendered_config with
  | none => local_config
  | some rendered =>
    let modules₀ :=
      if (alookup local_config.modules module_name).isSome then local_config.modules
      else aupsert local_config.modules module_name (.obj [])
    let modules₁ := amodify modules₀ module_name (fun module_entry =>
      match module_entry with
      | .obj obj =>
        match alookup obj "config" with
        | none => .obj (aupsert obj "config" rendered.config)
        | some existing =>
          if existing.isNull then .obj (aupsert obj "config" rendered.config)
          else .obj obj
      | other => other)
    { local_config with modules := modules₁ }

/-- Embeds `build_oop_config_and_db` (oop.rs lines 134-195): the final
config for the module's `config` section, the merged logging map and the
merged database options. -/
def build_oop_config_and_db (local_config : AppConfig) (module_name : String)
    (rendered_config : Option RenderedModuleConfig) :
    AppConfig × LoggingConfig × DbOptions :=
  (build_final_config local_config module_name rendered_config,
   merge_logging_configs (rendered_config.bind (·.logging)) local_config.logging,
   build_merged_db_options local_config.server.home_dir module_name
     (rendered_config.bind (·.database)) local_config)

/-- Embeds `resolve_db_options` (run.rs lines 164-177): without a global
`database` section the options are the `None` sentinel; otherwise a
`DbManager` is built from the whole configuration. The manager payload keeps
the database section of the serialized configuration (the full Figment
serialization is handed to the external `modkit-db` crate). -/
def resolve_db_options (config : AppConfig) : DbOptions :=
  match config.database with
  | none => DbOptions.noDb
  | some db => DbOptions.manager config.server.home_dir (.obj [("database", db)])

/-- The observable outcome of one `run_migrate` invocation: the lines printed
to stdout, the returned result (an `Err` propagates to the caller as a
non-zero exit), and whether the migration phases were entered at all. -/
structure MigrateRun where
  stdout : List String
  result : Except String Unit
  migration_invoked : Bool
  deriving Repr

/-- The stable success message printed by `run_migrate`. -/
def migrateOkMessage : String := "[OK] Database migrations completed successfully"

/-- Embeds `run_migrate` (run.rs lines 111-162). Module discovery and the
`PreInit → Migrate` phase machine (`ModuleRegistry::discover_and_build` and
`HostRuntime::run_migration_phases`, which are not part of the sources) are
abstracted as the `migration_phases` argument: their combined result once the
function reaches them. The control flow around them follows the source: bail
out with the error before discovery when the database options are the `None`
sentinel, propagate any phase error, and print the success message only
after the phases returned success. -/
def run_migrate (config : AppConfig) (migration_phases : Except String Unit) :
    MigrateRun :=
  match resolve_db_options config with
  | DbOptions.noDb =>
      { stdout := [],
        result := .error "Cannot run migrations: no database configuration found",
        migration_invoked := false }
  | DbOptions.manager _ _ =>
      match migration_phases with
      | .error e =>
          { stdout := [], result := .error e, migration_invoked := true }
      | .ok () =>
          { stdout := [migrateOkMessage], result := .ok (), migration_invoked := true }

/-- The `RuntimeKind` of a module: `type ∈ {inproc, oop}` of its `runtime` section. -/
inductive RuntimeKind where
  | inproc | oop
  deriving DecidableEq, Repr

/-- Modelled from the spec: `runtime.execution` of an OoP module
(`ExecutionConfig` lives in `bootstrap/config.rs`, which is not part of the
sources; the fields are those read by `try_build_oop_module_config`). -/
structure ExecutionConfig where
  executable_path : String
  args : List String
  environment : List (String × String)
  working_directory : Option String
  deriving DecidableEq, Repr

/-- Modelled from the spec: a module's parsed `runtime` section
(`type ∈ {inproc, oop}`, optional `execution`). -/
structure RuntimeConfig where
  mod_type : RuntimeKind
  execution : Option ExecutionConfig
  deriving DecidableEq, Repr

/-- Modelled from the spec: parsing of `runtime.type` (`type ∈ {inproc, oop}`). -/
def parseRuntimeKind : Json → Except String RuntimeKind
  | .str "inproc" => .ok RuntimeKind.inproc
  | .str "oop" => .ok RuntimeKind.oop
  | _ => .error "invalid runtime type"

/-- Modelled from the spec: parsing of `runtime.execution`
(`executable_path` set, plus argv, environment overlay and working
directory). -/
def parseExecutionConfig (j : Json) : Except String ExecutionConfig :=
  match j.get "executable_path" with
  | some (.str p) =>
      .ok { executable_path := p
            args := []
            environment := []
            working_directory :=
              match j.get "working_directory" with
              | some (.str d) => some d
              | _ => none }
  | _ => .error "execution config is missing executable_path"

/-- Modelled from the spec: `get_module_runtime_config` (declared in
`bootstrap/config.rs`, not part of the sources). Reads
`modules.<name>.runtime`; an absent module or absent `runtime` section means
the module has no runtime configuration (`Ok(None)`); otherwise the section
is parsed into a `RuntimeConfig`. -/
def get_module_runtime_config (config : AppConfig) (module_name : String) :
    Except String (Option RuntimeConfig) :=
  match alookup config.modules module_name with
  | none => .ok none
  | some module_entry =>
    match module_entry.get "runtime" with
    | none => .ok none
    | some runtime_json =>
      match runtime_json.get "type" with
      | none => .error "runtime section is missing type"
      | some type_json =>
        match parseRuntimeKind type_json with
        | .error e => .error e
        | .ok kind =>
          match runtime_json.get "execution" with
          | none => .ok (some { mod_type := kind, execution := none })
          | some exec_json =>
            match parseExecutionConfig exec_json with
            | .error e => .error e
            | .ok exec => .ok (some { mod_type := kind, execution := some exec })

/-- The `OopModuleSpawnConfig` record as assembled by `try_build_oop_module_config`. -/
structure OopModuleSpawnConfig where
  module_name : String
  binary : String
  args : List String
  env : List (String × String)
  working_directory : Option String
  rendered_config_json : String
  deriving DecidableEq, Repr

/-- Embeds `try_build_oop_module_config` (run.rs lines 208-247).
`normalize_path` (filesystem canonicalization) and
`render_module_config_for_oop` followed by `to_json` (both declared in
`bootstrap/config.rs`/`host.rs`, not part of the sources) are abstracted as
the function arguments `normalize_path` and `render_to_json`; the control
flow around them follows the source. A module that is not OoP (or has no
runtime configuration) yields `Ok(None)`; an OoP module without an
`execution` section is an error naming the module. -/
def try_build_oop_module_config
    (normalize_path : String → Except String String)
    (render_to_json : AppConfig → String → Except String String)
    (config : AppConfig) (module_name : String) :
    Except String (Option OopModuleSpawnConfig) :=
  match get_module_runtime_config config module_name with
  | .error e => .error e
  | .ok none => .ok none
  | .ok (some runtime_cfg) =>
    match runtime_cfg.mod_type with
    | RuntimeKind.inproc => .ok none
    | RuntimeKind.oop =>
      match runtime_cfg.execution with
      | none =>
          .error ("module '" ++ module_name ++
            "' is type=oop but execution config is missing")
      | some exec_cfg =>
        match normalize_path exec_cfg.executable_path with
        | .error e => .error e
        | .ok binary =>
          match render_to_json config module_name with
          | .error e => .error e
          | .ok rendered_json =>
            .ok (some
              { module_name := module_name
                binary := binary
                args := exec_cfg.args
                env := exec_cfg.environment
                working_directory := exec_cfg.working_directory
                rendered_config_json := rendered_json })

/-- Embeds the rendered-config acquisition of `run_oop_with_options`
(oop.rs lines 448-453): the value of the `MODKIT_MODULE_CONFIG` environment
variable (if set) is parsed by `RenderedModuleConfig::from_json`
(declared in `bootstrap/config.rs`, not part of the sources, abstracted as
the `from_json` argument); a parse failure is discarded with `.ok()`, so
the rendered config becomes `None`. -/
def rendered_config_from_env
    (from_json : String → Except String RenderedModuleConfig)
    (env_value : Option String) : Option RenderedModuleConfig :=
  match env_value with
  | some json => (from_json json).toOption
  | none => none

/-- Embeds the configuration phase of `run_oop_with_options`
(oop.rs lines 444-460): the local configuration load
(`AppConfig::load_or_default`, declared in `bootstrap/config.rs`, not part
of the sources, abstracted as the already-computed `load_local` result) is
fatal on error (`?`); the rendered config read from the environment is then
merged with the local config by `build_oop_config_and_db`. -/
def run_oop_config_phase (load_local : Except String AppConfig)
    (from_json : String → Except String RenderedModuleConfig)
    (env_value : Option String) (module_name : String) :
    Except String (AppConfig × LoggingConfig × DbOptions) :=
  match load_local with
  | .error e => .error e
  | .ok local_config =>
      .ok (build_oop_config_and_db local_config module_name
        (rendered_config_from_env from_json env_value))

set_option linter.unusedVariables false in
/-- Embeds the telemetry initialization of `run_oop_with_options`
(oop.rs lines 462-471): the tracing configuration handed to
`init_tracing` is taken from the rendered config alone ("OoP modules use
master's tracing config, not their own local config"); the local
configuration is a parameter of this slice only to show it is not
consulted. -/
def run_oop_tracing_used (local_config : AppConfig)
    (rendered_config : Option RenderedModuleConfig) : Option TracingConfig :=
  rendered_config.bind (fun rc => rc.tracing)

/-! ## Association-list lemmas -/

theorem alookup_aupsert_self {α : Type} (l : List (String × α)) (k : String) (v : α) :
    alookup (aupsert l k v) k = some v := by
  induction l with
  | nil => simp [alookup, aupsert]
  | cons p rest ih =>
    obtain ⟨k', v'⟩ := p
    by_cases h : k' = k
    · subst h
      simp [alookup, aupsert]
    · simp [alookup, aupsert, h, ih]

theorem alookup_aupsert_ne {α : Type} (l : List (String × α)) {k' k : String}
    (h : k' ≠ k) (v : α) : alookup (aupsert l k' v) k = alookup l k := by
  induction l with
  | nil => simp [alookup, aupsert, h]
  | cons p rest ih =>
    obtain ⟨k₀, v₀⟩ := p
    by_cases h₀ : k₀ = k'
    · subst h₀
      simp [alookup, aupsert, h]
    · simp only [aupsert, if_neg h₀]
      by_cases h₁ : k₀ = k
      · simp [alookup, h₁]
      · simp [alookup, h₁, ih]

theorem alookup_append {α : Type} (a b : List (String × α)) (k : String) :
    alookup (a ++ b) k =
      match alookup a k with
      | some v => some v
      | none => alookup b k := by
  induction a with
  | nil => simp [alookup]
  | cons p rest ih =>
    obtain ⟨k', v'⟩ := p
    by_cases h : k' = k
    · simp [alookup, h]
    · simp [alookup, h, ih]

theorem alookup_eq_none_iff {α : Type} (l : List (String × α)) (k : String) :
    alookup l k = none ↔ k ∉ akeys l := by
  induction l with
  | nil => simp [alookup, akeys]
  | cons p rest ih =>
    obtain ⟨k', v'⟩ := p
    by_cases h : k' = k
    · subst h
      simp [alookup, akeys]
    · simp [alookup, akeys, h, ih, Ne.symm h]

theorem alookup_reverse_of_nodup {α : Type} {l : List (String × α)}
    (h : NodupKeys l) (k : String) : alookup l.reverse k = alookup l k := by
  induction l with
  | nil => simp
  | cons p rest ih =>
    obtain ⟨k', v'⟩ := p
    have hnd : NodupKeys rest := by
      simpa [NodupKeys, akeys] using h.of_cons
    have hk' : k' ∉ akeys rest := by
      have := h
      simp only [NodupKeys, akeys, List.map_cons, List.nodup_cons] at this
      exact this.1
    rw [List.reverse_cons, alookup_append, ih hnd]
    by_cases hk : k' = k
    · subst hk
      have : alookup rest k' = none := (alookup_eq_none_iff rest k').mpr hk'
      simp [this, alookup]
    · cases hrest : alookup rest k with
      | some v => simp [alookup, hk, hrest]
      | none => simp [alookup, hk, hrest]

theorem alookup_foldl_aupsert {α : Type} (l acc : List (String × α)) (k : String) :
    alookup (l.foldl (fun a p => aupsert a p.1 p.2) acc) k =
      match alookup l.reverse k with
      | some v => some v
      | none => alookup acc k := by
  induction l generalizing acc with
  | nil => simp [alookup]
  | cons p t ih =>
    obtain ⟨k₀, v₀⟩ := p
    rw [List.foldl_cons, ih, List.reverse_cons, alookup_append]
    cases h : alookup t.reverse k with
    | some v => rfl
    | none =>
      by_cases hk : k₀ = k
      · subst hk
        simp [alookup, alookup_aupsert_self]
      · simp [alookup, hk, alookup_aupsert_ne _ hk]

theorem alookup_collectMap {α : Type} (l : List (String × α)) (k : String) :
    alookup (collectMap l) k = alookup l.reverse k := by
  rw [collectMap, alookup_foldl_aupsert]
  cases h : alookup l.reverse k <;> rfl

theorem aupsert_of_not_mem {α : Type} {l : List (String × α)} {k : String}
    (h : k ∉ akeys l) (v : α) : aupsert l k v = l ++ [(k, v)] := by
  induction l with
  | nil => simp [aupsert]
  | cons p rest ih =>
    obtain ⟨k', v'⟩ := p
    simp only [akeys, List.map_cons, List.mem_cons] at h
    push_neg at h
    simp [aupsert, Ne.symm h.1, ih (by simpa [akeys] using h.2)]

theorem collectMap_of_nodup {α : Type} {l : List (String × α)}
    (h : NodupKeys l) : collectMap l = l := by
  suffices H : ∀ (l acc : List (String × α)), NodupKeys l →
      (∀ k ∈ akeys l, k ∉ akeys acc) →
      l.foldl (fun a p => aupsert a p.1 p.2) acc = acc ++ l by
    simpa using H l [] h (by simp [akeys])
  intro l
  induction l with
  | nil => intro acc _ _; simp
  | cons p t ih =>
    intro acc hnd hdis
    obtain ⟨k₀, v₀⟩ := p
    have hk₀acc : k₀ ∉ akeys acc := hdis k₀ (by simp [akeys])
    have hndt : NodupKeys t := by
      simpa [NodupKeys, akeys] using hnd.of_cons
    have hk₀t : k₀ ∉ akeys t := by
      simp only [NodupKeys, akeys, List.map_cons, List.nodup_cons] at hnd
      exact hnd.1
    rw [List.foldl_cons]
    rw [aupsert_of_not_mem hk₀acc]
    rw [ih (acc ++ [(k₀, v₀)]) hndt ?_]
    · simp
    · intro k hk
      have h2 : k ≠ k₀ := fun h => hk₀t (h ▸ hk)
      have h1 : k ∉ akeys acc :=
        hdis k (by simp only [akeys, List.map_cons, List.mem_cons]; exact Or.inr hk)
      simp only [akeys, List.map_append, List.mem_append, List.map_cons, List.map_nil,
        List.mem_singleton, List.mem_cons, List.not_mem_nil, or_false]
      push_neg
      exact ⟨fun hmem => h1 hmem, h2⟩

theorem alookup_amodify_self {α : Type} (l : List (String × α)) (k : String)
    (f : α → α) : alookup (amodify l k f) k = (alookup l k).map f := by
  induction l with
  | nil => simp [alookup, amodify]
  | cons p rest ih =>
    obtain ⟨k', v'⟩ := p
    by_cases h : k' = k
    · subst h
      simp [alookup, amodify]
    · simp [alookup, amodify, h, ih]

theorem alookup_amodify_ne {α : Type} (l : List (String × α)) {k' k : String}
    (h : k' ≠ k) (f : α → α) : alookup (amodify l k' f) k = alookup l k := by
  induction l with
  | nil => simp [alookup, amodify]
  | cons p rest ih =>
    obtain ⟨k₀, v₀⟩ := p
    by_cases h₀ : k₀ = k'
    · subst h₀
      simp [alookup, amodify, h]
    · simp only [amodify, if_neg h₀]
      by_cases h₁ : k₀ = k
      · simp [alookup, h₁]
      · simp [alookup, h₁, ih]

/-! ## Lookup characterization of `merge_json_objects` -/

theorem alookup_upsertMerge_self (tf : List (String × Json)) (k : String) (v : Json) :
    alookup (upsertMerge tf k v) k =
      some (match alookup tf k with
            | some tv => mergeJsonObjects tv v
            | none => v) := by
  induction tf with
  | nil => simp [alookup, upsertMerge]
  | cons p rest ih =>
    obtain ⟨k', tv⟩ := p
    by_cases h : k' = k
    · subst h
      simp [alookup, upsertMerge]
    · simp [alookup, upsertMerge, h, ih]

theorem alookup_upsertMerge_ne (tf : List (String × Json)) {k' k : String}
    (h : k' ≠ k) (v : Json) : alookup (upsertMerge tf k' v) k = alookup tf k := by
  induction tf with
  | nil => simp [alookup, upsertMerge, h]
  | cons p rest ih =>
    obtain ⟨k₀, tv⟩ := p
    by_cases h₀ : k₀ = k'
    · subst h₀
      simp [alookup, upsertMerge, h]
    · simp only [upsertMerge, if_neg h₀]
      by_cases h₁ : k₀ = k
      · simp [alookup, h₁]
      · simp [alookup, h₁, ih]

theorem alookup_mergeFields {sf : List (String × Json)} (hsf : NodupKeys sf)
    (tf : List (String × Json)) (k : String) :
    alookup (mergeFields tf sf) k =
      match alookup sf k with
      | some sv => some (match alookup tf k with
                         | some tv => mergeJsonObjects tv sv
                         | none => sv)
      | none => alookup tf k := by
  induction sf generalizing tf with
  | nil => simp [mergeFields, alookup]
  | cons p rest ih =>
    obtain ⟨k₀, v₀⟩ := p
    have hndr : NodupKeys rest := by
      simpa [NodupKeys, akeys] using hsf.of_cons
    have hk₀ : k₀ ∉ akeys rest := by
      simp only [NodupKeys, akeys, List.map_cons, List.nodup_cons] at hsf
      exact hsf.1
    rw [show mergeFields tf ((k₀, v₀) :: rest) = mergeFields (upsertMerge tf k₀ v₀) rest
      from by rw [mergeFields]]
    rw [ih hndr]
    by_cases hk : k₀ = k
    · subst hk
      have hnone : alookup rest k₀ = none := (alookup_eq_none_iff rest k₀).mpr hk₀
      simp [hnone, alookup_upsertMerge_self, alookup]
    · simp only [alookup, if_neg hk]
      cases hrest : alookup rest k with
      | some sv => simp [alookup_upsertMerge_ne _ hk]
      | none => simp [alookup_upsertMerge_ne _ hk]

/-- `merge_json_objects` returns the source whenever the two values are not
both objects. -/
theorem mergeJsonObjects_eq_source {tv sv : Json}
    (h : tv.isObj = false ∨ sv.isObj = false) : mergeJsonObjects tv sv = sv := by
  cases tv <;> cases sv <;> simp [mergeJsonObjects, Json.isObj] at h ⊢

/-! ## Derived characterizations -/

/-- The lookup behaviour of `merge_logging_configs`: a local binding wins,
otherwise the master binding survives. -/
theorem alookup_merge_logging {master local_logging : LoggingConfig}
    (hm : NodupKeys master) (hl : NodupKeys local_logging) (k : String) :
    alookup (merge_logging_configs (some master) local_logging) k =
      match alookup local_logging k with
      | some v => some v
      | none => alookup master k := by
  rw [merge_logging_configs, Option.getD_some, alookup_collectMap,
    List.reverse_append, alookup_append, alookup_reverse_of_nodup hl,
    alookup_reverse_of_nodup hm]
  cases alookup local_logging k <;> rfl

/-- The `modules.<name>.config` subtree of an `AppConfig` (the value the
module ultimately reads). -/
def moduleConfigSection (config : AppConfig) (module_name : String) : Option Json :=
  (alookup config.modules module_name).bind (fun entry => entry.get "config")

/-- A concrete logging section at level `info`, used by witnesses. -/
def sampleSectionInfo : LogSection :=
  { console_level := some LogLevel.info
    section_file := none
    console_format := ConsoleFormat.text
    max_age_days := none
    max_backups := none
    max_size_mb := none }

/-- A concrete logging section at level `debug`, used by witnesses. -/
def sampleSectionDebug : LogSection :=
  { console_level := some LogLevel.debug
    section_file := none
    console_format := ConsoleFormat.text
    max_age_days := none
    max_backups := none
    max_size_mb := none }

/-- A concrete one-entry master logging map, used by witnesses. -/
def sampleMasterLogging : LoggingConfig := [("default", sampleSectionInfo)]

/-- A concrete one-entry local logging map, used by witnesses. -/
def sampleLocalLogging : LoggingConfig := [("default", sampleSectionDebug)]

/-! ## Claims -/

/-- C2: the logging map returned by `merge_logging_configs` has key set
`keys(M) ∪ keys(L)`; every key present in the local map is mapped to the
local section whole, and a key present only in the master map keeps the
master section. -/
theorem c2_merge_logging_configs_spec (master local_logging : LoggingConfig)
    (hm : NodupKeys master) (hl : NodupKeys local_logging) (k : String) :
    ((alookup (merge_logging_configs (some master) local_logging) k).isSome ↔
      (alookup master k).isSome ∨ (alookup local_logging k).isSome) ∧
    (∀ sec, alookup local_logging k = some sec →
      alookup (merge_logging_configs (some master) local_logging) k = some sec) ∧
    (alookup local_logging k = none →
      alookup (merge_logging_configs (some master) local_logging) k =
        alookup master k) := by
  rw [alookup_merge_logging hm hl]
  cases hloc : alookup local_logging k with
  | some sec => simp
  | none => cases hmast : alookup master k <;> simp

/-- C2 witness: the characterization applied to concrete one-entry maps. -/
theorem c2_merge_logging_configs_spec_witness :
    ((alookup (merge_logging_configs (some sampleMasterLogging) sampleLocalLogging)
        "default").isSome ↔
      (alookup sampleMasterLogging "default").isSome ∨
      (alookup sampleLocalLogging "default").isSome) ∧
    (∀ sec, alookup sampleLocalLogging "default" = some sec →
      alookup (merge_logging_configs (some sampleMasterLogging) sampleLocalLogging)
        "default" = some sec) ∧
    (alookup sampleLocalLogging "default" = none →
      alookup (merge_logging_configs (some sampleMasterLogging) sampleLocalLogging)
        "default" = alookup sampleMasterLogging "default") :=
  c2_merge_logging_configs_spec sampleMasterLogging sampleLocalLogging
    (by decide) (by decide) "default"

/-- C3: `merge_json_objects` on two objects yields an object whose keys are
the union of both key sets; keys unique to the target keep the target value,
keys unique to the source take the source value, and for shared keys the
values are merged recursively when both are objects and replaced by the
source value otherwise. -/
theorem c3_merge_json_objects_spec (tf sf : List (String × Json))
    (hsf : NodupKeys sf) :
    ∃ rf, mergeJsonObjects (.obj tf) (.obj sf) = .obj rf ∧
      ∀ k, alookup rf k =
        match alookup tf k, alookup sf k with
        | some tv, some sv =>
            some (if tv.isObj && sv.isObj then mergeJsonObjects tv sv else sv)
        | some tv, none => some tv
        | none, some sv => some sv
        | none, none => none := by
  refine ⟨mergeFields tf sf, by rw [mergeJsonObjects], fun k => ?_⟩
  rw [alookup_mergeFields hsf]
  rcases htf : alookup tf k with _ | tv <;> rcases hs : alookup sf k with _ | sv
  · rfl
  · rfl
  · rfl
  · show some (mergeJsonObjects tv sv) =
      some (if tv.isObj && sv.isObj then mergeJsonObjects tv sv else sv)
    by_cases h1 : tv.isObj = true <;> by_cases h2 : sv.isObj = true
    · simp [h1, h2]
    · simp only [Bool.not_eq_true] at h2
      simp [h2, mergeJsonObjects_eq_source (Or.inr h2)]
    · simp only [Bool.not_eq_true] at h1
      simp [h1, mergeJsonObjects_eq_source (Or.inl h1)]
    · simp only [Bool.not_eq_true] at h1 h2
      simp [h1, h2, mergeJsonObjects_eq_source (Or.inl h1)]

/-- C3 witness: the characterization applied to the flat objects of
`test_merge_json_flat_objects`. -/
theorem c3_merge_json_objects_spec_witness :
    ∃ rf, mergeJsonObjects
        (.obj [("a", Json.num 1), ("b", Json.num 2)])
        (.obj [("b", Json.num 3), ("c", Json.num 4)]) = .obj rf ∧
      ∀ k, alookup rf k =
        match alookup [("a", Json.num 1), ("b", Json.num 2)] k,
              alookup [("b", Json.num 3), ("c", Json.num 4)] k with
        | some tv, some sv =>
            some (if tv.isObj && sv.isObj then mergeJsonObjects tv sv else sv)
        | some tv, none => some tv
        | none, some sv => some sv
        | none, none => none :=
  c3_merge_json_objects_spec _ _ (by decide)

/-- C8 counterexample: `merge_json_objects` with an empty source object does
not leave a non-object target unchanged — the empty source object replaces
it entirely. -/
theorem c8_counterexample :
    mergeJsonObjects (Json.str "x") (Json.obj []) = Json.obj [] ∧
    Json.obj [] ≠ Json.str "x" :=
  ⟨by simp [mergeJsonObjects], fun h => Json.noConfusion h⟩

/-- C8 (amended): the child-side merge is deterministic, `merge_json_objects`
with an empty source object leaves any *object* target unchanged,
`merge_logging_configs` with an empty local map returns the master map
unchanged, and repeating either merge with the empty side yields the result
of a single application. -/
theorem c8_merge_empty_side_idempotent :
    (∀ (lc₁ lc₂ : AppConfig) (m₁ m₂ : String)
        (rc₁ rc₂ : Option RenderedModuleConfig), lc₁ = lc₂ → m₁ = m₂ → rc₁ = rc₂ →
       build_oop_config_and_db lc₁ m₁ rc₁ = build_oop_config_and_db lc₂ m₂ rc₂) ∧
    (∀ tf : List (String × Json),
       mergeJsonObjects (.obj tf) (.obj []) = .obj tf ∧
       mergeJsonObjects (mergeJsonObjects (.obj tf) (.obj [])) (.obj []) =
         mergeJsonObjects (.obj tf) (.obj [])) ∧
    (∀ master : LoggingConfig, NodupKeys master →
       merge_logging_configs (some master) [] = master ∧
       merge_logging_configs (some (merge_logging_configs (some master) [])) [] =
         merge_logging_configs (some master) []) := by
  refine ⟨fun lc₁ lc₂ m₁ m₂ rc₁ rc₂ h₁ h₂ h₃ => by rw [h₁, h₂, h₃], ?_, ?_⟩
  · intro tf
    have h : mergeJsonObjects (.obj tf) (.obj []) = .obj tf := by
      simp [mergeJsonObjects, mergeFields]
    exact ⟨h, by rw [h, h]⟩
  · intro master hm
    have h : merge_logging_configs (some master) [] = master := by
      rw [merge_logging_configs, Option.getD_some, List.append_nil,
        collectMap_of_nodup hm]
    exact ⟨h, by rw [h, h]⟩

/-- C8 witness: the idempotence statements applied to a concrete object and
a concrete logging map. -/
theorem c8_merge_empty_side_idempotent_witness :
    merge_logging_configs (some sampleMasterLogging) [] = sampleMasterLogging ∧
    mergeJsonObjects (.obj [("a", Json.num 1)]) (.obj []) =
      .obj [("a", Json.num 1)] :=
  ⟨(c8_merge_empty_side_idempotent.2.2 sampleMasterLogging (by decide)).1,
   (c8_merge_empty_side_idempotent.2.1 [("a", Json.num 1)]).1⟩

/-- Characterization of the `config` section after `build_final_config` with
a rendered config present, provided the local module entry (when present) is
a JSON object: an absent or null local `config` is replaced by the rendered
one, any other local value is kept untouched. -/
theorem moduleConfigSection_build_final_config
    (local_config : AppConfig) (m : String) (r : RenderedModuleConfig)
    (hobj : ∀ e, alookup local_config.modules m = some e → e.isObj = true) :
    moduleConfigSection (build_final_config local_config m (some r)) m =
      match moduleConfigSection local_config m with
      | none => some r.config
      | some v => if v.isNull then some r.config else some v := by
  cases hent : alookup local_config.modules m with
  | none =>
    simp only [moduleConfigSection, build_final_config, hent, Option.isSome_none,
      Bool.false_eq_true, if_false, Option.bind_none]
    rw [alookup_amodify_self, alookup_aupsert_self]
    simp [alookup, Json.get, aupsert]
  | some e =>
    have he := hobj e hent
    cases e with
    | obj fs =>
      simp only [moduleConfigSection, build_final_config, hent, Option.isSome_some,
        if_true, Option.bind_some]
      rw [alookup_amodify_self, hent]
      cases hcfg : alookup fs "config" with
      | none =>
        simp only [Option.map_some, hcfg, Json.get, Option.bind_some]
        simp [alookup_aupsert_self, hcfg]
      | some existing =>
        cases hnull : existing.isNull with
        | true =>
          simp only [Option.map_some, hcfg, hnull, Json.get, if_true,
            Option.bind_some]
          simp [alookup_aupsert_self, hcfg, hnull]
        | false =>
          simp only [Option.map_some, hcfg, hnull, Json.get, Bool.false_eq_true,
            if_false, Option.bind_some]
          simp [hcfg, hnull]
    | null => simp [Json.isObj] at he
    | bool b => simp [Json.isObj] at he
    | num n => simp [Json.isObj] at he
    | str s => simp [Json.isObj] at he
    | arr xs => simp [Json.isObj] at he

/-- C1 (amended): for a local config whose `modules.<name>` entry, when
present, is a JSON object — the invariant of every well-formed module
table — the child-side merge gives the module the rendered `config`
subtree exactly when the local `config` is absent or null, and keeps the
local `config` value untouched (whole-subtree, no deep merge) otherwise. -/
theorem c1_config_section_replacement (local_config : AppConfig) (m : String)
    (r : RenderedModuleConfig)
    (hobj : ∀ e, alookup local_config.modules m = some e → e.isObj = true) :
    ((moduleConfigSection local_config m = none ∨
        moduleConfigSection local_config m = some Json.null) →
      moduleConfigSection (build_oop_config_and_db local_config m (some r)).1 m =
        some r.config) ∧
    (∀ v, moduleConfigSection local_config m = some v → v ≠ Json.null →
      moduleConfigSection (build_oop_config_and_db local_config m (some r)).1 m =
        some v) := by
  have hchar := moduleConfigSection_build_final_config local_config m r hobj
  have h1 : (build_oop_config_and_db local_config m (some r)).1 =
      build_final_config local_config m (some r) := rfl
  rw [h1]
  constructor
  · rintro (hc | hc) <;> (rw [hchar, hc]; try simp [Json.isNull])
  · intro v hv hnull
    rw [hchar, hv]
    have hfalse : v.isNull = false := by
      cases v with
      | null => exact absurd rfl hnull
      | bool b => rfl
      | num n => rfl
      | str s => rfl
      | arr xs => rfl
      | obj fs => rfl
    simp [hfalse]

/-- A concrete local config whose module entry has `config: null`, used by
the C1 witness. -/
def c1LocalConfig : AppConfig :=
  { server := { home_dir := "/tmp" }
    database := none
    logging := []
    tracing := none
    modules_dir := none
    modules := [("m", Json.obj [("config", Json.null)])] }

/-- A concrete rendered config, used by the C1 witness and counterexample. -/
def c1Rendered : RenderedModuleConfig :=
  { database := none
    config := Json.obj [("setting", Json.str "master")]
    logging := none
    tracing := none }

/-- C1 witness: the amended claim applied to a local config with
`config: null` under module `m`. -/
theorem c1_config_section_replacement_witness :
    ((moduleConfigSection c1LocalConfig "m" = none ∨
        moduleConfigSection c1LocalConfig "m" = some Json.null) →
      moduleConfigSection
          (build_oop_config_and_db c1LocalConfig "m" (some c1Rendered)).1 "m" =
        some c1Rendered.config) ∧
    (∀ v, moduleConfigSection c1LocalConfig "m" = some v → v ≠ Json.null →
      moduleConfigSection
          (build_oop_config_and_db c1LocalConfig "m" (some c1Rendered)).1 "m" =
        some v) :=
  c1_config_section_replacement c1LocalConfig "m" c1Rendered
    (by
      intro e he
      rw [show alookup c1LocalConfig.modules "m" =
        some (Json.obj [("config", Json.null)]) from rfl] at he
      injection he with h
      rw [← h]
      rfl)

/-- A local config whose `modules.m` entry is a JSON string (allowed by the
`modules: HashMap<String, Value>` type), used by the C1 counterexample. -/
def c1BadLocalConfig : AppConfig :=
  { server := { home_dir := "/tmp" }
    database := none
    logging := []
    tracing := none
    modules_dir := none
    modules := [("m", Json.str "x")] }

/-- C1 counterexample: with a non-object local `modules.m` entry the local
`modules.m.config` is absent, yet the merged config does not carry the
rendered `config` — `as_object_mut` fails and the entry is left untouched. -/
theorem c1_counterexample :
    moduleConfigSection c1BadLocalConfig "m" = none ∧
    moduleConfigSection
        (build_oop_config_and_db c1BadLocalConfig "m" (some c1Rendered)).1 "m" ≠
      some c1Rendered.config := by
  refine ⟨rfl, fun h => ?_⟩
  rw [show moduleConfigSection
      (build_oop_config_and_db c1BadLocalConfig "m" (some c1Rendered)).1 "m" =
    none from rfl] at h
  exact Option.noConfusion h

/-- A concrete tracing configuration, used by the C4 theorems. -/
def sampleTracing : TracingConfig :=
  { enabled := true, endpoint := some "http://127.0.0.1:4317", sampling := none }

/-- A concrete local config that sets `tracing`, used by the C4 theorems. -/
def c4LocalConfig : AppConfig :=
  { server := { home_dir := "/tmp" }
    database := none
    logging := []
    tracing := some sampleTracing
    modules_dir := none
    modules := [] }

/-- C4 counterexample: with no rendered config present, the tracing
configuration used for telemetry initialization is `none`, not the local
config's tracing — the claimed fallback to the local tracing does not
exist. -/
theorem c4_counterexample :
    run_oop_tracing_used c4LocalConfig none = none ∧
    c4LocalConfig.tracing = some sampleTracing ∧
    (none : Option TracingConfig) ≠ some sampleTracing :=
  ⟨rfl, rfl, fun h => Option.noConfusion h⟩

/-- C4 (amended): the tracing configuration used to initialize telemetry in
the OoP entrypoint is the rendered config's tracing when a rendered config
is present, and no tracing configuration at all otherwise; the local
config's tracing is never consulted. -/
theorem c4_tracing_rendered_only (local₁ local₂ : AppConfig)
    (rendered : Option RenderedModuleConfig) :
    run_oop_tracing_used local₁ rendered = run_oop_tracing_used local₂ rendered ∧
    (∀ rc, rendered = some rc → run_oop_tracing_used local₁ rendered = rc.tracing) ∧
    (rendered = none → run_oop_tracing_used local₁ rendered = none) := by
  refine ⟨rfl, fun rc h => ?_, fun h => ?_⟩ <;> subst h <;> rfl

/-- C4 witness: the amended claim applied to a concrete local config and an
absent rendered config. -/
theorem c4_tracing_rendered_only_witness :
    run_oop_tracing_used c4LocalConfig none =
      run_oop_tracing_used c4LocalConfig none ∧
    (∀ rc, (none : Option RenderedModuleConfig) = some rc →
      run_oop_tracing_used c4LocalConfig none = rc.tracing) ∧
    ((none : Option RenderedModuleConfig) = none →
      run_oop_tracing_used c4LocalConfig none = none) :=
  c4_tracing_rendered_only c4LocalConfig c4LocalConfig none

/-- C5: when the rendered database config is absent or carries neither a
global nor a module part, and the local config has neither a global
`database` section nor a `modules.<name>.database` entry, the merged
database options are the `None` sentinel. -/
theorem c5_db_options_none (home_dir m : String)
    (rendered_db : Option RenderedDbConfig) (local_config : AppConfig)
    (hr : rendered_db = none ∨
      ∃ db, rendered_db = some db ∧ db.global = none ∧ db.module = none)
    (hl : local_config.database = none)
    (hm : (alookup local_config.modules m).bind (fun e => e.get "database") = none) :
    build_merged_db_options home_dir m rendered_db local_config =
      DbOptions.noDb := by
  rcases hr with h | ⟨db, hdb, hg, hmod⟩
  · subst h
    simp [build_merged_db_options, hl, hm]
  · subst hdb
    simp [build_merged_db_options, hl, hm, hg, hmod]

/-- A concrete local config with no database anywhere, used by the C5
witness. -/
def c5LocalConfig : AppConfig :=
  { server := { home_dir := "/tmp" }
    database := none
    logging := []
    tracing := none
    modules_dir := none
    modules := [("test_module", Json.obj [("config", Json.obj [])])] }

/-- C5 witness: the sentinel claim applied to a concrete database-free
configuration with an absent rendered database config. -/
theorem c5_db_options_none_witness :
    build_merged_db_options "/tmp" "test_module" none c5LocalConfig =
      DbOptions.noDb :=
  c5_db_options_none "/tmp" "test_module" none c5LocalConfig (Or.inl rfl) rfl rfl

/-- C6: with a config lacking any `database` section, `run_migrate` fails
with an error whose message contains "no database configuration found", and
the migration phases are never entered. -/
theorem c6_migrate_no_db (config : AppConfig)
    (migration_phases : Except String Unit) (h : config.database = none) :
    (run_migrate config migration_phases).result =
      .error "Cannot run migrations: no database configuration found" ∧
    "no database configuration found".toList <:+:
      "Cannot run migrations: no database configuration found".toList ∧
    (run_migrate config migration_phases).migration_invoked = false := by
  have hdb : resolve_db_options config = DbOptions.noDb := by
    rw [resolve_db_options, h]
  exact ⟨by simp [run_migrate, hdb],
    ⟨"Cannot run migrations: ".toList, [], by decide⟩,
    by simp [run_migrate, hdb]⟩

/-- A concrete config with no database section, used by the C6 witness. -/
def noDbConfig : AppConfig :=
  { server := { home_dir := "/tmp" }
    database := none
    logging := []
    tracing := none
    modules_dir := none
    modules := [] }

/-- C6 witness: the migrate bail-out applied to a concrete database-free
configuration. -/
theorem c6_migrate_no_db_witness :
    (run_migrate noDbConfig (.ok ())).result =
      .error "Cannot run migrations: no database configuration found" ∧
    "no database configuration found".toList <:+:
      "Cannot run migrations: no database configuration found".toList ∧
    (run_migrate noDbConfig (.ok ())).migration_invoked = false :=
  c6_migrate_no_db noDbConfig (.ok ()) rfl

/-- C7: `run_migrate` prints the stable success message exactly when a
database configuration exists and the migration phases all succeeded; on a
phase failure nothing is printed and the error is propagated. -/
theorem c7_migrate_ok_message (config : AppConfig)
    (migration_phases : Except String Unit) :
    (migrateOkMessage ∈ (run_migrate config migration_phases).stdout ↔
      config.database.isSome = true ∧ migration_phases = .ok ()) ∧
    (∀ e, config.database.isSome = true → migration_phases = .error e →
      migrateOkMessage ∉ (run_migrate config migration_phases).stdout ∧
      (run_migrate config migration_phases).result = .error e) := by
  cases hdb : config.database with
  | none =>
    have hopt : resolve_db_options config = DbOptions.noDb := by
      rw [resolve_db_options, hdb]
    constructor
    · simp [run_migrate, hopt, hdb]
    · intro e hsome
      exact absurd hsome (by simp)
  | some db =>
    have hopt : resolve_db_options config =
        DbOptions.manager config.server.home_dir (.obj [("database", db)]) := by
      rw [resolve_db_options, hdb]
    cases migration_phases with
    | ok u =>
      cases u
      exact ⟨by simp [run_migrate, hopt, hdb],
        fun e _ he => Except.noConfusion he⟩
    | error e₀ =>
      constructor
      · simp [run_migrate, hopt, hdb]
      · intro e _ he
        injection he with h
        subst h
        simp [run_migrate, hopt]

/-- A concrete config with a database section, used by the C7 witness. -/
def withDbConfig : AppConfig :=
  { server := { home_dir := "/tmp" }
    database := some (Json.obj [("servers", Json.obj [])])
    logging := []
    tracing := none
    modules_dir := none
    modules := [] }

/-- C7 witness: the success-message characterization applied to a concrete
configuration and a failing migration phase. -/
theorem c7_migrate_ok_message_witness :
    (migrateOkMessage ∈
        (run_migrate withDbConfig (.error "migration failed")).stdout ↔
      withDbConfig.database.isSome = true ∧
      (Except.error "migration failed" : Except String Unit) = .ok ()) ∧
    (∀ e, withDbConfig.database.isSome = true →
        (Except.error "migration failed" : Except String Unit) = .error e →
      migrateOkMessage ∉
        (run_migrate withDbConfig (.error "migration failed")).stdout ∧
      (run_migrate withDbConfig (.error "migration failed")).result =
        .error e) :=
  c7_migrate_ok_message withDbConfig (.error "migration failed")

/-- C9: an OoP module whose runtime configuration has no `execution` section
makes `try_build_oop_module_config` fail with an error naming the module,
for every path-normalization and rendering behaviour. -/
theorem c9_oop_missing_execution
    (normalize_path : String → Except String String)
    (render_to_json : AppConfig → String → Except String String)
    (config : AppConfig) (m : String) (rc : RuntimeConfig)
    (hrc : get_module_runtime_config config m = .ok (some rc))
    (hoop : rc.mod_type = RuntimeKind.oop)
    (hexec : rc.execution = none) :
    try_build_oop_module_config normalize_path render_to_json config m =
      .error ("module '" ++ m ++
        "' is type=oop but execution config is missing") := by
  simp [try_build_oop_module_config, hrc, hoop, hexec]

/-- A concrete config with an OoP module lacking `runtime.execution`, used by
the C9 witness. -/
def c9Config : AppConfig :=
  { server := { home_dir := "/tmp" }
    database := none
    logging := []
    tracing := none
    modules_dir := none
    modules := [("worker",
      Json.obj [("runtime", Json.obj [("type", Json.str "oop")])])] }

/-- C9 witness: the failure applied to a concrete module table, with
identity normalization and a trivial renderer. -/
theorem c9_oop_missing_execution_witness :
    try_build_oop_module_config (fun p => Except.ok p)
        (fun _ _ => Except.ok "\x7b\x7d") c9Config "worker" =
      .error ("module '" ++ "worker" ++
        "' is type=oop but execution config is missing") :=
  c9_oop_missing_execution (fun p => Except.ok p) (fun _ _ => Except.ok "\x7b\x7d")
    c9Config "worker" { mod_type := RuntimeKind.oop, execution := none }
    rfl rfl rfl

/-- C10: a set but unparsable `MODKIT_MODULE_CONFIG` value is not fatal —
the rendered config becomes `None` and the merge proceeds exactly as in
standalone mode — whereas a failing local config load is propagated as an
error. -/
theorem c10_bad_rendered_env_nonfatal
    (from_json : String → Except String RenderedModuleConfig)
    (s e : String) (hparse : from_json s = .error e) :
    rendered_config_from_env from_json (some s) = none ∧
    (∀ (local_config : AppConfig) (m : String),
      run_oop_config_phase (.ok local_config) from_json (some s) m =
        .ok (build_oop_config_and_db local_config m none)) ∧
    (∀ (load_err : String) (env_value : Option String) (m : String),
      run_oop_config_phase (.error load_err) from_json env_value m =
        .error load_err) := by
  have h1 : rendered_config_from_env from_json (some s) = none := by
    simp [rendered_config_from_env, hparse, Except.toOption]
  refine ⟨h1, fun local_config m => ?_, fun load_err env_value m => rfl⟩
  simp [run_oop_config_phase, h1]

/-- C10 witness: the non-fatal parse failure applied to a concrete failing
parser and environment value. -/
theorem c10_bad_rendered_env_nonfatal_witness :
    rendered_config_from_env (fun _ => Except.error "bad json") (some "\x7b") =
      none ∧
    (∀ (local_config : AppConfig) (m : String),
      run_oop_config_phase (.ok local_config) (fun _ => Except.error "bad json")
          (some "\x7b") m =
        .ok (build_oop_config_and_db local_config m none)) ∧
    (∀ (load_err : String) (env_value : Option String) (m : String),
      run_oop_config_phase (.error load_err) (fun _ => Except.error "bad json")
          env_value m =
        .error load_err) :=
  c10_bad_rendered_env_nonfatal (fun _ => Except.error "bad json")
    "\x7b" "bad json" rfl

end Modkit
